import Mathlib

/-!
Verification of the job-offer adaptation and document composition pipeline
of the cvtex repository, against its natural-language specification.

The Python source (src/generate.py) is shallowly embedded: Python strings
are modelled as `List Char` (written `Str`), Python dictionaries whose keys
are fixed in the source become Lean structures, fields read with
`dict.get(key, default)` become `Option` fields with the default applied at
the use site, and the one indexing operation that can raise (`profile["titles"][0]`)
makes the embedded `adapt_profile` return `Except`.  Python's stable
`list.sort(key=...)` is modelled by insertion sort with the non-strict
key comparison, which is the unique sorted stable permutation.
-/

/-- Python strings are modelled as lists of characters. -/
abbrev Str := List Char

/-- Lower-casing of a single character as `str.lower` does it: ASCII letters
plus the accented capitals that occur in the source's vocabulary tables. -/
def pyCharLower (c : Char) : Char :=
  if 'A' ≤ c ∧ c ≤ 'Z' then Char.ofNat (c.toNat + 32)
  else if c = 'É' then 'é'
  else if c = 'È' then 'è'
  else if c = 'Ê' then 'ê'
  else if c = 'Ë' then 'ë'
  else if c = 'À' then 'à'
  else if c = 'Â' then 'â'
  else if c = 'Ç' then 'ç'
  else if c = 'Î' then 'î'
  else if c = 'Ï' then 'ï'
  else if c = 'Ô' then 'ô'
  else if c = 'Ù' then 'ù'
  else if c = 'Û' then 'û'
  else c

/-- `text.lower()`. -/
def pyLower (s : Str) : Str := s.map pyCharLower

/-- `needle` matches at the head of `hay`. -/
def leadEq : Str → Str → Bool
  | [], _ => true
  | _ :: _, [] => false
  | a :: as, b :: bs => a = b && leadEq as bs

/-- Python's substring test `needle in hay`. -/
def containsSub (hay needle : Str) : Bool :=
  match hay with
  | [] => needle.isEmpty
  | _ :: t => leadEq needle hay || containsSub t needle

/-- `sum(1 for w in ws if w in text)`: how many of the listed words occur in
`text` as substrings (each listed word counted once). -/
def countPresent (ws : List Str) (text : Str) : Nat :=
  (ws.filter (fun w => containsSub text w)).length

/-- Strong French indicator list of `detect_offer_language`. -/
def strongFrenchIndicators : List Str :=
  (["vous", "nous", "votre", "notre", "être", "avoir",
    "poste", "rejoindre", "rejoignez", "postuler",
    "télétravail", "salaire", "candidature", "contrat",
    "équipe", "entreprise", "missions", "avantages",
    "profil recherché", "ce que nous offrons", "vos missions"]).map String.toList

/-- Strong English indicator list of `detect_offer_language`. -/
def strongEnglishIndicators : List Str :=
  (["you will", "we are", "you are", "your role",
    "responsibilities", "requirements", "about us",
    "what we offer", "who you are", "what you'll do"]).map String.toList

/-- Final-fallback French word list of `detect_offer_language`. -/
def frenchFallbackWords : List Str :=
  (["poste", "vous", "nous", "équipe", "entreprise", "rejoindre",
    "candidature", "profil", "missions", "avantages", "salaire",
    "expérience", "compétences", "formation", "télétravail",
    "votre", "notre", "être", "avoir", "pour", "dans", "avec"]).map String.toList

/-- Final-fallback English word list of `detect_offer_language`. -/
def englishFallbackWords : List Str :=
  (["you", "we", "team", "company", "join", "application",
    "profile", "responsibilities", "benefits", "salary",
    "experience", "skills", "education", "remote", "role",
    "your", "our", "about", "will", "with"]).map String.toList

/-- `sum(1 for w in words if f" {w} " in f" {text} ")`: the word padded by
spaces occurs in the text padded by spaces. -/
def countPadded (ws : List Str) (text : Str) : Nat :=
  (ws.filter (fun w =>
    containsSub (' ' :: text ++ [' ']) (' ' :: w ++ [' ']))).length

/-- French strong-signal count of a lower-cased text. -/
def frenchStrongCount (textLower : Str) : Nat :=
  countPresent strongFrenchIndicators textLower

/-- English strong-signal count of a lower-cased text. -/
def englishStrongCount (textLower : Str) : Nat :=
  countPresent strongEnglishIndicators textLower

/-- The `langdetect` collaborator: `none` models the library being
unavailable (`LANGDETECT_AVAILABLE = False`); `some f` models `detect`,
where `f text` is `.error ()` when the call raises and `.ok tag` when it
returns the language tag `tag`. -/
abbrev LangDetector := Option (Str → Except Unit Str)

/-- `detect_offer_language(text)` of src/generate.py, parametrised by the
optional `langdetect` collaborator. -/
def detect_offer_language (langdetect : LangDetector) (text : Str) : Str :=
  if text = [] then "fr".toList
  else
    let textLower := pyLower text
    let frenchStrong := frenchStrongCount textLower
    if 3 ≤ frenchStrong then "fr".toList
    else
      let englishStrong := englishStrongCount textLower
      if 2 ≤ englishStrong then "en".toList
      else
        let fallback :=
          let frenchCount := countPadded frenchFallbackWords textLower
          let englishCount := countPadded englishFallbackWords textLower
          if frenchCount + 3 < englishCount then "en".toList else "fr".toList
        match langdetect with
        | none => fallback
        | some f =>
          match f (text.take 3000) with
          | .error _ => fallback
          | .ok tag =>
            if tag = "fr".toList then "fr".toList
            else if tag = "en".toList then
              if 2 ≤ frenchStrong then "fr".toList else "en".toList
            else "fr".toList

/-- `match_score(item_keywords, job_keywords)` of src/generate.py: the size of
the intersection of the two lower-cased keyword sets. -/
def match_score (itemKeywords jobKeywords : List Str) : Nat :=
  ((itemKeywords.map pyLower).toFinset ∩ (jobKeywords.map pyLower).toFinset).card

/-- Non-strict comparison of Python sort keys of the shape used in
`adapt_profile`: pairs compared lexicographically. -/
def keyLE (p q : Int × Int) : Prop :=
  p.1 < q.1 ∨ (p.1 = q.1 ∧ p.2 ≤ q.2)

instance keyLE.instDecidable : DecidableRel keyLE := fun p q => by
  unfold keyLE; exact inferInstance

/-- The comparison `list.sort(key=f)` uses, lifted along the key function. -/
def keyRel {α : Type} (f : α → Int × Int) : α → α → Prop :=
  fun a b => keyLE (f a) (f b)

instance keyRel.instDecidable {α : Type} (f : α → Int × Int) :
    DecidableRel (keyRel f) := fun a b => keyLE.instDecidable (f a) (f b)

instance keyRel.instIsTotal {α : Type} (f : α → Int × Int) :
    IsTotal α (keyRel f) := by
  constructor
  intro a b
  rcases lt_trichotomy (f a).1 (f b).1 with h | h | h
  · exact Or.inl (Or.inl h)
  · rcases le_total (f a).2 (f b).2 with h2 | h2
    · exact Or.inl (Or.inr ⟨h, h2⟩)
    · exact Or.inr (Or.inr ⟨h.symm, h2⟩)
  · exact Or.inr (Or.inl h)

instance keyRel.instIsTrans {α : Type} (f : α → Int × Int) :
    IsTrans α (keyRel f) := by
  constructor
  intro a b c h1 h2
  rcases h1 with h1 | ⟨e1, l1⟩
  · rcases h2 with h2 | ⟨e2, _⟩
    · exact Or.inl (h1.trans h2)
    · exact Or.inl (e2 ▸ h1)
  · rcases h2 with h2 | ⟨e2, l2⟩
    · exact Or.inl (e1 ▸ h2)
    · exact Or.inr ⟨e1.trans e2, l1.trans l2⟩

/-- Python's stable `list.sort(key=f)`: the unique permutation that is sorted
by the key and keeps the original relative order of entries with equal keys.
Insertion sort with the non-strict key comparison computes exactly that. -/
def pySortByKey {α : Type} (f : α → Int × Int) (l : List α) : List α :=
  l.insertionSort (keyRel f)

/-- `profile["personal"]`. -/
structure Personal where
  name : Str
  email : Str
  phone : Str
  location : Str
deriving DecidableEq, Repr

/-- One entry of `profile["experiences"]`. -/
structure Experience where
  title : Str
  company : Str
  period : Str
  bullets : List Str
  priority : Int
  keywords : List Str
deriving DecidableEq, Repr

/-- One value of the `profile["skills"]` mapping. -/
structure SkillData where
  label : Str
  keywords : List Str
  items : List Str
deriving DecidableEq, Repr

/-- One entry of `profile["certifications"]`. -/
structure Certification where
  name : Str
  date : Str
  keywords : List Str
deriving DecidableEq, Repr

/-- One entry of `profile["education"]`. -/
structure EducationEntry where
  title : Str
  school : Str
  period : Str
deriving DecidableEq, Repr

/-- One entry of `profile["languages"]`. -/
structure LanguageEntry where
  name : Str
  level : Str
deriving DecidableEq, Repr

/-- The candidate profile record (profile.json).  Fields the source reads
with `profile.get(key, default)` are `Option`; fields read with brackets are
plain. -/
structure Profile where
  personal : Personal
  titles : List Str
  experiences : List Experience
  skills : List (Str × SkillData)
  certifications : List Certification
  education : List EducationEntry
  languages : List LanguageEntry
  interests : List Str
  personal_intro : Option Str := none
  personal_intro_en : Option Str := none
deriving DecidableEq, Repr

/-- The scraped job posting record handed to `adapt_profile` (`job_data`).
Fields the source reads with `job_data.get(key, default)` are `Option`;
fields read with brackets are plain strings, possibly empty. -/
structure JobData where
  title : Str
  company : Str
  url : Str
  raw_text : Str
  keywords : List Str
  location : Option Str := none
  description : Option Str := none
  language : Option Str := none
  logo_url : Option Str := none
  colors : Option (List (Str × (Nat × Nat × Nat))) := none
deriving DecidableEq, Repr

/-- An experience annotated by `adapt_profile` with its match score and its
selected bullets (`{**exp, "score": ..., "selected_bullets": ...}`). -/
structure ScoredExperience where
  exp : Experience
  score : Nat
  selected_bullets : List Str
deriving DecidableEq, Repr

/-- The per-experience annotation step of `adapt_profile`. -/
def annotateExperience (jobKeywords : List Str) (e : Experience) :
    ScoredExperience :=
  { exp := e
    score := match_score e.keywords jobKeywords
    selected_bullets := e.bullets.take 4 }

/-- Sort key of `experiences.sort(key=lambda x: (-x["score"], x["priority"]))`. -/
def experienceKey (se : ScoredExperience) : Int × Int :=
  (-(se.score : Int), se.exp.priority)

/-- The experience-ranking block of `adapt_profile`: annotate each experience,
then sort stably by descending score and ascending priority. -/
def adaptExperiences (jobKeywords : List Str) (exps : List Experience) :
    List ScoredExperience :=
  pySortByKey experienceKey (exps.map (annotateExperience jobKeywords))

/-- `item.lower().replace(" ", "").replace("-", "")`. -/
def cleanItem (s : Str) : Str :=
  (pyLower s).filter (fun c => !(c = ' ' || c = '-'))

/-- Exact-match test of the skill-item tiering: the lowered item equals a
posting keyword, or the space/hyphen-stripped item equals a space/hyphen-
stripped posting keyword. -/
def itemExactMatch (jobKeywords : List Str) (item : Str) : Bool :=
  jobKeywords.any (fun k => k = pyLower item) ||
  jobKeywords.any (fun k =>
    (k.filter (fun c => !(c = ' ' || c = '-'))) = cleanItem item)

/-- Text-match test of the skill-item tiering: the lowered item occurs in the
posting's raw text, or the stripped item occurs in the space-stripped raw
text, or some posting keyword (lowered) occurs inside the lowered item. -/
def itemTextMatch (jobKeywords : List Str) (jobText : Str) (item : Str) :
    Bool :=
  containsSub jobText (pyLower item) ||
  containsSub (jobText.filter (fun c => !(c = ' '))) (cleanItem item) ||
  jobKeywords.any (fun kw => containsSub (pyLower item) (pyLower kw))

/-- A skill group annotated by `adapt_profile`. -/
structure ScoredSkill where
  id : Str
  label : Str
  items : List Str
  score : Nat
  exact_count : Nat
deriving DecidableEq, Repr

/-- The per-skill-group annotation of `adapt_profile`: partition the items
into exact-match, text-match and other tiers, rebuild the item list from the
tiers (or fall back to the first five declared items when both match tiers
are empty), cap at six, and score the group. -/
def annotateSkill (jobKeywords : List Str) (jobText : Str)
    (entry : Str × SkillData) : ScoredSkill :=
  let skillData := entry.2
  let score := match_score skillData.keywords jobKeywords
  let exactTier := skillData.items.filter (itemExactMatch jobKeywords)
  let textTier := skillData.items.filter (fun item =>
    !itemExactMatch jobKeywords item && itemTextMatch jobKeywords jobText item)
  let otherTier := skillData.items.filter (fun item =>
    !itemExactMatch jobKeywords item && !itemTextMatch jobKeywords jobText item)
  let allItems :=
    if exactTier = [] ∧ textTier = [] then skillData.items.take 5
    else exactTier ++ textTier ++ otherTier
  let itemScore := exactTier.length * 5 + textTier.length * 2
  { id := entry.1
    label := skillData.label
    items := allItems.take 6
    score := score + itemScore
    exact_count := exactTier.length }

/-- Sort key of `skills.sort(key=lambda x: (-x["score"], -x["exact_count"]))`. -/
def skillKey (sk : ScoredSkill) : Int × Int :=
  (-(sk.score : Int), -(sk.exact_count : Int))

/-- The skill-ranking block of `adapt_profile` before the top-7 cut
(the `skills` list right after `skills.sort(...)`). -/
def adaptSkillsAll (jobKeywords : List Str) (jobText : Str)
    (skills : List (Str × SkillData)) : List ScoredSkill :=
  pySortByKey skillKey (skills.map (annotateSkill jobKeywords jobText))

/-- `adapted["skills"] = skills[:7]`. -/
def adaptSkills (jobKeywords : List Str) (jobText : Str)
    (skills : List (Str × SkillData)) : List ScoredSkill :=
  (adaptSkillsAll jobKeywords jobText skills).take 7

/-- A certification annotated with its match score (`{**cert, "score": ...}`). -/
structure ScoredCertification where
  cert : Certification
  score : Nat
deriving DecidableEq, Repr

/-- Sort key of `certifications.sort(key=lambda x: -x["score"])`. -/
def certificationKey (sc : ScoredCertification) : Int × Int :=
  (-(sc.score : Int), 0)

/-- The certification-ranking block of `adapt_profile`: annotate, sort by
descending score, keep the top five. -/
def adaptCertifications (jobKeywords : List Str)
    (certs : List Certification) : List ScoredCertification :=
  (pySortByKey certificationKey
    (certs.map (fun c =>
      { cert := c, score := match_score c.keywords jobKeywords }))).take 5

/-- The derived job context (`analyze_job_context`'s result dictionary). -/
structure JobContext where
  company_type : Str
  tone : Str
  team_size : Str
  missions : List Str
  values : List Str
  tech_stack : List Str
  growth_stage : Str
  remote_policy : Str
  key_challenges : List Str
deriving DecidableEq, Repr

/-- Python whitespace class `\s` restricted to the characters that occur in
scraped text. -/
def pySpace (c : Char) : Bool :=
  c = ' ' || c = '\t' || c = '\n' || c = '\r' || c = '\x0b' || c = '\x0c'

/-- Consume a literal token at the head of the text. -/
def dropLead (tok s : Str) : Option Str :=
  if leadEq tok s then some (s.drop tok.length) else none

/-- Consume `\s+`: at least one whitespace character, greedily. -/
def dropSpaces1 (s : Str) : Option Str :=
  match s with
  | [] => none
  | c :: rest => if pySpace c then some (rest.dropWhile pySpace) else none

/-- Consume the optional group `(?:tok\s+)?`. -/
def dropOptionalTok (tok : Str) (s : Str) : Str :=
  match dropLead tok s with
  | none => s
  | some r =>
    match dropSpaces1 r with
    | none => s
    | some r2 => r2

/-- Try the pattern `équipe\s+(?:data\s+)?(?:de\s+)?(\d+)` at the head of
`s`, returning the digit group. -/
def teamSizeAt (s : Str) : Option Str :=
  match dropLead ("équipe".toList) s with
  | none => none
  | some r1 =>
    match dropSpaces1 r1 with
    | none => none
    | some r2 =>
      let r3 := dropOptionalTok ("data".toList) r2
      let r4 := dropOptionalTok ("de".toList) r3
      let digits := r4.takeWhile Char.isDigit
      if digits = [] then none else some digits

/-- `re.search(r"équipe\s+(?:data\s+)?(?:de\s+)?(\d+)", raw_text)`: leftmost
match of the team-size pattern. -/
def searchTeamSize : Str → Option Str
  | [] => none
  | c :: t =>
    match teamSizeAt (c :: t) with
    | some digits => some digits
    | none => searchTeamSize t

/-- The fixed tech-stack vocabulary of `analyze_job_context`. -/
def contextTechKeywords : List Str :=
  (["bigquery", "snowflake", "databricks", "airflow", "dbt", "spark",
    "kafka", "python", "sql", "terraform", "docker", "kubernetes",
    "aws", "gcp", "azure", "looker", "tableau", "power bi", "dataflow"]).map
    String.toList

/-- The value-category table of `analyze_job_context`. -/
def contextValueKeywords : List (Str × List Str) :=
  [("innovation".toList, (["innovation", "innover", "disruption",
      "révolutionne"]).map String.toList),
   ("collaboration".toList, (["collaboration", "équipe", "ensemble",
      "collectif"]).map String.toList),
   ("excellence".toList, (["excellence", "exigence", "qualité",
      "rigueur"]).map String.toList),
   ("impact".toList, (["impact", "différence", "transformation",
      "changer"]).map String.toList),
   ("croissance".toList, (["croissance", "ambition", "scale",
      "développement"]).map String.toList),
   ("bienveillance".toList, (["bienveillance", "humain", "bien-être",
      "care"]).map String.toList)]

/-- `analyze_job_context(job_data)` of src/generate.py. -/
def analyze_job_context (job : JobData) : JobContext :=
  let raw := pyLower job.raw_text
  let startupWords := (["startup", "early stage", "seed", "série a"]).map
    String.toList
  let scaleupWords := (["scale-up", "scaleup", "série b", "série c",
    "hyper-croissance", "forte croissance"]).map String.toList
  let groupWords := (["groupe", "filiale", "cac 40", "grand compte",
    "leader mondial"]).map String.toList
  let companyTone : Str × Str :=
    if startupWords.any (fun w => containsSub raw w) then
      ("startup".toList, "casual".toList)
    else if scaleupWords.any (fun w => containsSub raw w) then
      ("scale-up".toList, "casual".toList)
    else if groupWords.any (fun w => containsSub raw w) then
      ("grand groupe".toList, "formal".toList)
    else ("entreprise".toList, "professional".toList)
  let growth :=
    if containsSub raw ("french tech".toList) ||
        containsSub raw ("next 40".toList) ||
        containsSub raw ("next 120".toList) then
      "French Tech".toList
    else []
  let teamSize := (searchTeamSize raw).getD []
  let remote :=
    if (["full remote", "100% remote", "télétravail total"]).any
        (fun w => containsSub raw w.toList) then
      "full remote".toList
    else if (["télétravail", "remote", "hybride"]).any
        (fun w => containsSub raw w.toList) then
      "hybride".toList
    else []
  let techStack := contextTechKeywords.filter (fun t => containsSub raw t)
  let values := contextValueKeywords.filterMap (fun vk =>
    if vk.2.any (fun k => containsSub raw k) then some vk.1 else none)
  let challenges :=
    (if containsSub raw ("challenge".toList) ||
        containsSub raw ("défi".toList) then
      ["relever des défis ambitieux".toList] else []) ++
    (if containsSub raw ("croissance".toList) ||
        containsSub raw ("scale".toList) then
      ["accompagner la croissance".toList] else []) ++
    (if containsSub raw ("industrialis".toList) then
      ["industrialiser les pipelines".toList] else []) ++
    (if containsSub raw ("ia".toList) ||
        containsSub raw ("machine learning".toList) ||
        containsSub raw ("ml".toList) then
      ["intégrer l'IA/ML".toList] else [])
  { company_type := companyTone.1
    tone := companyTone.2
    team_size := teamSize
    missions := []
    values := values
    tech_stack := techStack
    growth_stage := growth
    remote_policy := remote
    key_challenges := challenges }

/-- The archetype relevance-keyword lists of `adapt_profile`'s `title_scores`. -/
def engineerTitleKeywords : List Str :=
  (["etl", "elt", "pipeline", "airflow", "gcp", "bigquery", "data engineer",
    "dbt", "terraform", "kafka", "spark", "dataflow", "orchestration",
    "cloud", "aws", "azure", "infrastructure"]).map String.toList

/-- Relevance keywords of the `data_scientist` archetype. -/
def scientistTitleKeywords : List Str :=
  (["machine learning", "ml", "model", "nlp", "deep learning",
    "data scientist", "tensorflow", "pytorch", "scikit", "prediction",
    "classification"]).map String.toList

/-- Relevance keywords of the `data_steward` archetype. -/
def stewardTitleKeywords : List Str :=
  (["governance", "gouvernance", "quality", "qualité", "steward", "catalog",
    "metadata", "lineage", "compliance"]).map String.toList

/-- Relevance keywords of the `data_analyst` archetype. -/
def analystTitleKeywords : List Str :=
  (["analyst", "bi", "power bi", "tableau", "dashboard", "reporting",
    "excel", "business intelligence"]).map String.toList

/-- `max(title_scores, key=title_scores.get)`: the four archetype scores are
compared in dictionary insertion order, the first maximal key wins. -/
def bestProfileArchetype (jobText : Str) : Str :=
  let de := countPresent engineerTitleKeywords jobText
  let ds := countPresent scientistTitleKeywords jobText
  let dst := countPresent stewardTitleKeywords jobText
  let da := countPresent analystTitleKeywords jobText
  let candidates : List (Str × Nat) :=
    [("data_engineer".toList, de), ("data_scientist".toList, ds),
     ("data_steward".toList, dst), ("data_analyst".toList, da)]
  (candidates.foldl
    (fun best c => if best.2 < c.2 then c else best)
    ("data_engineer".toList, de)).1

/-- Default French base introduction of `adapt_profile`. -/
def baseIntroFrDefault : Str :=
  ("Avec un parcours riche en programmation/développement et spécialisé en data, " ++
   "notamment en data gouvernance et en data engineering, je cherche une nouvelle " ++
   "opportunité pour mettre en pratique mes expériences et connaissances acquises, " ++
   "afin de relever de nouveaux défis.").toList

/-- Default English base introduction of `adapt_profile`. -/
def baseIntroEnDefault : Str :=
  ("With a rich background in programming/development and specialized in data, " ++
   "particularly in data governance and data engineering, I am seeking a new " ++
   "opportunity to apply my acquired experiences and knowledge, in order to take on new challenges.").toList

/-- `specialization_phrases_fr.get(best_profile, "")`. -/
def specializationFr (best : Str) : Str :=
  if best = "data_engineer".toList then
    ("Passionné par l'industrialisation des flux de données, l'optimisation des pipelines et l'infrastructure cloud.").toList
  else if best = "data_scientist".toList then
    ("Passionné par le Machine Learning et l'IA, avec une expertise en déploiement de modèles et analyse prédictive.").toList
  else if best = "data_steward".toList then
    ("Expert en gouvernance des données, catalogage et qualité des données, avec une forte capacité de collaboration transverse.").toList
  else if best = "data_analyst".toList then
    ("Passionné par la visualisation de données et le reporting, avec une maîtrise des outils BI modernes.").toList
  else []

/-- `specialization_phrases_en.get(best_profile, "")`. -/
def specializationEn (best : Str) : Str :=
  if best = "data_engineer".toList then
    ("Passionate about industrializing data flows, optimizing pipelines, and cloud infrastructure.").toList
  else if best = "data_scientist".toList then
    ("Passionate about Machine Learning and AI, with expertise in model deployment and predictive analytics.").toList
  else if best = "data_steward".toList then
    ("Expert in data governance, cataloging, and data quality, with strong cross-functional collaboration skills.").toList
  else if best = "data_analyst".toList then
    ("Passionate about data visualization and reporting, with mastery of modern BI tools.").toList
  else []

/-- The domain-indicative words that let the posting's title override the
profile's primary declared title. -/
def domainTitleWords : List Str :=
  (["data", "engineer", "scientist", "analyst", "bi", "ml"]).map String.toList

/-- `s.split(sep)[0]` for a non-empty separator: the prefix of `s` before the
first occurrence of `sep` (the whole of `s` when `sep` does not occur). -/
def cutBefore (sep : Str) : Str → Str
  | [] => []
  | c :: t => if leadEq sep (c :: t) then [] else c :: cutBefore sep t

/-- Python `str.strip()`. -/
def pyStrip (s : Str) : Str :=
  ((s.dropWhile pySpace).reverse.dropWhile pySpace).reverse

/-- The display-title block of `adapt_profile`.  Reading
`profile["titles"][0]` raises `IndexError` when the declared title list is
empty, which the embedding reports as `Except.error`. -/
def displayTitle (profile : Profile) (job : JobData) : Except Str Str :=
  let fromProfile : Except Str Str :=
    match profile.titles with
    | [] => .error ("IndexError: profile titles list is empty".toList)
    | t :: _ => .ok t
  if job.title ≠ [] then
    if domainTitleWords.any (fun kw => containsSub (pyLower job.title) kw) then
      .ok (pyStrip (cutBefore (" (".toList) (cutBefore (" - ".toList) job.title)))
    else fromProfile
  else fromProfile

/-- One entry of the optional `adapted["projects"]` list, which only the
API's user-edit path fills in (`adapt_profile` leaves it absent and
`generate_cv` reads it with `adapted.get("projects", [])`). -/
structure ProjectEntry where
  name : Str
  description : Str
  technologies : Option Str := none
deriving DecidableEq, Repr

/-- The adapted-profile record built by `adapt_profile`. -/
structure AdaptedProfile where
  personal : Personal
  job_title : Str
  company : Str
  job_url : Str
  summary : Str
  display_title : Str
  experiences : List ScoredExperience
  skills : List ScoredSkill
  certifications : List ScoredCertification
  education : List EducationEntry
  languages : List LanguageEntry
  interests : List Str
  job_keywords : List Str
  job_location : Str
  job_context : JobContext
  job_description : Str
  logo_url : Str
  colors : List (Str × (Nat × Nat × Nat))
  language : Str
  projects : List ProjectEntry := []
deriving DecidableEq, Repr

/-- `adapt_profile(profile, job_data)` of src/generate.py.  All steps are
total except the display-title block, whose possible `IndexError` is
propagated as `Except.error`. -/
def adapt_profile (profile : Profile) (job : JobData) :
    Except Str AdaptedProfile :=
  match displayTitle profile job with
  | .error e => .error e
  | .ok displayTitleText =>
    let jobKeywords := job.keywords
    let jobText := job.raw_text
    let best := bestProfileArchetype jobText
    let lang := job.language.getD ("fr".toList)
    let baseIntro :=
      if lang = "en".toList then
        profile.personal_intro_en.getD baseIntroEnDefault
      else profile.personal_intro.getD baseIntroFrDefault
    let specialization :=
      if lang = "en".toList then specializationEn best
      else specializationFr best
    let summary :=
      if specialization ≠ [] then baseIntro ++ (" ".toList) ++ specialization
      else baseIntro
    .ok
      { personal := profile.personal
        job_title := if job.title = [] then "Data Engineer".toList else job.title
        company := if job.company = [] then "Entreprise".toList else job.company
        job_url := job.url
        summary := summary
        display_title := displayTitleText
        experiences := adaptExperiences jobKeywords profile.experiences
        skills := adaptSkills jobKeywords jobText profile.skills
        certifications := adaptCertifications jobKeywords profile.certifications
        education := profile.education
        languages := profile.languages
        interests := profile.interests
        job_keywords := jobKeywords
        job_location := job.location.getD []
        job_context := analyze_job_context job
        job_description := job.description.getD []
        logo_url := job.logo_url.getD []
        colors := job.colors.getD []
        language := job.language.getD ("fr".toList) }

/-- The five composed cover-letter segments, as plain texts. -/
structure SegmentTexts where
  accroche : Str
  entreprise : Str
  moi : Str
  nous : Str
  conclusion : Str
deriving DecidableEq, Repr

/-- An override dictionary for the five cover-letter segments: a key is
present (`some`) or absent (`none`). -/
structure SegmentOverrides where
  accroche : Option Str := none
  entreprise : Option Str := none
  moi : Option Str := none
  nous : Option Str := none
  conclusion : Option Str := none
deriving DecidableEq, Repr

/-- Python truthiness of the override dictionary: a dictionary is truthy
exactly when it has at least one key. -/
def overridesTruthy (o : SegmentOverrides) : Bool :=
  o.accroche.isSome || o.entreprise.isSome || o.moi.isSome ||
  o.nous.isSome || o.conclusion.isSome

/-- The per-key update block
`x = content.get(key, x)` applied to the five segments. -/
def applyOverrides (o : SegmentOverrides) (s : SegmentTexts) : SegmentTexts :=
  { accroche := o.accroche.getD s.accroche
    entreprise := o.entreprise.getD s.entreprise
    moi := o.moi.getD s.moi
    nous := o.nous.getD s.nous
    conclusion := o.conclusion.getD s.conclusion }

/-- The override-selection block of `generate_cover_letter`
(`if edited_content: ... elif mistral_content: ...`): `edited` models
`adapted.get("cover_letter")` and `mistral` models `mistral_content`; `none`
is an absent dictionary and an empty dictionary is falsy. -/
def resolveSegments (localTexts : SegmentTexts)
    (edited mistral : Option SegmentOverrides) : SegmentTexts :=
  match edited with
  | some e =>
    if overridesTruthy e then applyOverrides e localTexts
    else
      match mistral with
      | some m =>
        if overridesTruthy m then applyOverrides m localTexts else localTexts
      | none => localTexts
  | none =>
    match mistral with
    | some m =>
      if overridesTruthy m then applyOverrides m localTexts else localTexts
    | none => localTexts

/-- Names of the five cover-letter segments. -/
inductive SegmentName where
  | accroche
  | entreprise
  | moi
  | nous
  | conclusion
deriving DecidableEq, Repr

/-- Projection of a composed segment by name. -/
def segmentOf : SegmentName → SegmentTexts → Str
  | .accroche, s => s.accroche
  | .entreprise, s => s.entreprise
  | .moi, s => s.moi
  | .nous, s => s.nous
  | .conclusion, s => s.conclusion

/-- Projection of an override entry by name. -/
def overrideOf : SegmentName → SegmentOverrides → Option Str
  | .accroche, o => o.accroche
  | .entreprise, o => o.entreprise
  | .moi, o => o.moi
  | .nous, o => o.nous
  | .conclusion, o => o.conclusion

/-- One attempt of `compile_latex`'s compiler loop: the binary can be absent
(`FileNotFoundError`), the run can time out (`TimeoutExpired`), or the
process finishes with an exit code and an error stream. -/
inductive CompilerOutcome where
  | binaryAbsent
  | timedOut
  | finished (exitCode : Nat) (stderrText : Str)
deriving DecidableEq, Repr

/-- `compile_latex(tex_path)` of src/generate.py as a function of the
outcomes of the fixed ordered compiler invocations (tectonic, then
pdflatex): return `True` on the first zero exit code; an absent binary, a
timeout or a non-zero exit code falls through to the next compiler (the
"not found" stderr test only selects the diagnostic print); return `False`
when the list is exhausted. -/
def compile_latex : List CompilerOutcome → Bool
  | [] => false
  | outcome :: rest =>
    match outcome with
    | .finished 0 _ => true
    | _ => compile_latex rest

/-- A successful compiler run: finished with exit code zero. -/
def compilerSucceeded : CompilerOutcome → Bool
  | .finished 0 _ => true
  | _ => false

/-- `text.replace(old, new)` for a single-character pattern: every occurrence
of the character is replaced by the string `new`. -/
def replaceChar (old : Char) (new : Str) (s : Str) : Str :=
  s.flatMap (fun c => if c = old then new else [c])

/-- `escape_latex(text)` of src/generate.py: the nine replacements applied in
the dictionary's order (`&`, `%`, `$`, `#`, `_`, braces, `~`, `^`). -/
def escape_latex (s : Str) : Str :=
  replaceChar '^' ("\\textasciicircum\x7b\x7d".toList)
    (replaceChar '~' ("\\textasciitilde\x7b\x7d".toList)
      (replaceChar '\x7d' ("\\\x7d".toList)
        (replaceChar '\x7b' ("\\\x7b".toList)
          (replaceChar '_' ("\\_".toList)
            (replaceChar '#' ("\\#".toList)
              (replaceChar '$' ("\\$".toList)
                (replaceChar '%' ("\\%".toList)
                  (replaceChar '&' ("\\&".toList) s))))))))

/-- The LaTeX-reserved characters named by the specification's escaping
property. -/
def texSpecial (c : Char) : Bool :=
  c = '&' || c = '%' || c = '$' || c = '#' || c = '_' ||
  c = '\x7b' || c = '\x7d'

/-- Scan with the previous character at hand: every reserved character seen
is preceded by a backslash. -/
def escapedFrom (prev : Char) : Str → Bool
  | [] => true
  | c :: rest => (!texSpecial c || prev = '\\') && escapedFrom c rest

/-- Every occurrence of a reserved character in the string is preceded by a
backslash (a reserved character in first position has no escape). -/
def allEscaped : Str → Bool
  | [] => true
  | c :: rest => !texSpecial c && escapedFrom c rest

/-- Scan with the previous character at hand for one target character. -/
def unescapedOccAux (target prev : Char) : Str → Bool
  | [] => false
  | c :: rest => (c = target && !(prev = '\\')) || unescapedOccAux target c rest

/-- The string contains an occurrence of `target` that is not preceded by a
backslash. -/
def unescapedOcc (target : Char) : Str → Bool
  | [] => false
  | c :: rest => c = target || unescapedOccAux target c rest

/-- Per-character normal form of the replacement chain of `escape_latex`. -/
def escapeCharTable (c : Char) : Str :=
  if c = '&' then "\\&".toList
  else if c = '%' then "\\%".toList
  else if c = '$' then "\\$".toList
  else if c = '#' then "\\#".toList
  else if c = '_' then "\\_".toList
  else if c = '\x7b' then "\\\x7b".toList
  else if c = '\x7d' then "\\\x7d".toList
  else if c = '~' then "\\textasciitilde\x7b\x7d".toList
  else if c = '^' then "\\textasciicircum\x7b\x7d".toList
  else [c]

/-- The per-language section labels of `generate_cv` (its `translations`
table). -/
structure CvLabels where
  experiences : Str
  education : Str
  skills : Str
  projects : Str
  certifications : Str
  languages : Str
  interests : Str
  babel : Str
deriving DecidableEq, Repr

/-- French labels of `generate_cv`. -/
def cvLabelsFr : CvLabels :=
  { experiences := "EXPÉRIENCES".toList
    education := "FORMATIONS".toList
    skills := "COMPÉTENCES".toList
    projects := "PROJETS PERSONNELS".toList
    certifications := "CERTIFICATIONS".toList
    languages := "LANGUES".toList
    interests := "CENTRES D'INTÉRÊT".toList
    babel := "french".toList }

/-- English labels of `generate_cv`. -/
def cvLabelsEn : CvLabels :=
  { experiences := "EXPERIENCE".toList
    education := "EDUCATION".toList
    skills := "SKILLS".toList
    projects := "PERSONAL PROJECTS".toList
    certifications := "CERTIFICATIONS".toList
    languages := "LANGUAGES".toList
    interests := "INTERESTS".toList
    babel := "english".toList }

/-- `"\n".join(f"    \\item {escape_latex(b)}" for b in exp["selected_bullets"])`. -/
def bulletsTexOf (bs : List Str) : Str :=
  List.intercalate ("\n".toList)
    (bs.map (fun b => ("    \\item ").toList ++ escape_latex b))

/-- One experience block of `generate_cv`'s `experiences_tex` loop.  The
period is interpolated without escaping. -/
def experienceTex (e : ScoredExperience) : Str :=
  let bullets := bulletsTexOf e.selected_bullets
  if bullets = [] then
    ("\\cventry\x7b").toList ++ escape_latex e.exp.title ++
    ("\x7d\n\x7b").toList ++ escape_latex e.exp.company ++
    ("\x7d\n\x7b").toList ++ e.exp.period ++
    ("\x7d\n\x7b\x7d\n\n").toList
  else
    ("\\cventry\x7b").toList ++ escape_latex e.exp.title ++
    ("\x7d\n\x7b").toList ++ escape_latex e.exp.company ++
    ("\x7d\n\x7b").toList ++ e.exp.period ++
    ("\x7d\n\x7b%\n\\begin\x7bitemize\x7d[leftmargin=*, noitemsep, topsep=0pt]\n").toList ++
    bullets ++
    ("\n\\end\x7bitemize\x7d\n\x7d\n\n").toList

/-- `experiences_tex`. -/
def experiencesTex (l : List ScoredExperience) : Str :=
  l.flatMap experienceTex

/-- `education_tex`: the period is interpolated without escaping. -/
def educationTex (l : List EducationEntry) : Str :=
  l.flatMap (fun edu =>
    ("\\cventry\x7b").toList ++ escape_latex edu.title ++
    ("\x7d\n\x7b").toList ++ escape_latex edu.school ++
    ("\x7d\n\x7b").toList ++ edu.period ++
    ("\x7d\n\x7b\x7d\n\n").toList)

/-- `skills_tex`: label and the comma-joined item list are escaped. -/
def skillsTex (l : List ScoredSkill) : Str :=
  l.flatMap (fun sk =>
    ("\\competence\x7b").toList ++ escape_latex sk.label ++
    ("\x7d\x7b").toList ++
    escape_latex (List.intercalate (", ".toList) sk.items) ++
    ("\x7d\n").toList)

/-- `certifications_tex`: the name is escaped, the date is not. -/
def certificationsTex (l : List ScoredCertification) : Str :=
  l.flatMap (fun sc =>
    ("\\certification\x7b").toList ++ escape_latex sc.cert.name ++
    (" (").toList ++ sc.cert.date ++ (")\x7d\n").toList)

/-- `languages_tex`: name and level are escaped. -/
def languagesTex (l : List LanguageEntry) : Str :=
  l.flatMap (fun lg =>
    ("\\certification\x7b\\small ").toList ++ escape_latex lg.name ++
    (" - ").toList ++ escape_latex lg.level ++ ("\x7d\n").toList)

/-- `interests_tex`: each interest is interpolated WITHOUT escaping. -/
def interestsTex (l : List Str) : Str :=
  l.flatMap (fun interest =>
    ("\\certification\x7b\\small ").toList ++ interest ++ ("\x7d\n").toList)

/-- `projects_tex`: name, technologies and description are escaped. -/
def projectsTex (l : List ProjectEntry) : Str :=
  l.flatMap (fun proj =>
    ("\\noindent\\textbf\x7b").toList ++ escape_latex proj.name ++
    ("\x7d \\hfill \\textcolor\x7btextgray\x7d\x7b\\small ").toList ++
    escape_latex (proj.technologies.getD []) ++
    ("\x7d\\\\\n\x7b\\small ").toList ++ escape_latex proj.description ++
    ("\x7d\\\\[4pt]\n").toList)

/-- The résumé document text built by `generate_cv` (the `cv_content`
f-string) as a function of the adapted record. -/
def cvContent (a : AdaptedProfile) : Str :=
  let t := if a.language = "en".toList then cvLabelsEn else cvLabelsFr
  ("\\documentclass[a4paper,10pt]\x7barticle\x7d\n\n% Packages\n").toList ++
  ("\\usepackage[utf8]\x7binputenc\x7d\n\\usepackage[T1]\x7bfontenc\x7d\n").toList ++
  ("\\usepackage[").toList ++
  (t.babel) ++
  ("]\x7bbabel\x7d\n\\usepackage\x7blmodern\x7d\n").toList ++
  ("\\usepackage[sfdefault]\x7broboto\x7d\n\\usepackage\x7bgeometry\x7d\n").toList ++
  ("\\usepackage\x7bxcolor\x7d\n\\usepackage\x7btikz\x7d\n").toList ++
  ("\\usepackage\x7bfontawesome5\x7d\n\\usepackage\x7benumitem\x7d\n").toList ++
  ("\\usepackage\x7btitlesec\x7d\n\\usepackage\x7bhyperref\x7d\n").toList ++
  ("\\usepackage\x7bparskip\x7d\n\n% Page geometry\n").toList ++
  ("\\geometry\x7bleft=0.5cm, right=0.8cm, top=0.4cm, bottom=0.4cm\x7d\n\n").toList ++
  ("% Colors\n").toList ++
  ("\\definecolor\x7bmaingreen\x7d\x7bRGB\x7d\x7b76, 175, 130\x7d\n").toList ++
  ("\\definecolor\x7bdarkgreen\x7d\x7bRGB\x7d\x7b60, 140, 105\x7d\n").toList ++
  ("\\definecolor\x7blightgray\x7d\x7bRGB\x7d\x7b245, 245, 245\x7d\n").toList ++
  ("\\definecolor\x7btextgray\x7d\x7bRGB\x7d\x7b80, 80, 80\x7d\n\n").toList ++
  ("% Remove page numbers\n\\pagestyle\x7bempty\x7d\n\n% Hyperref setup\n").toList ++
  ("\\hypersetup\x7b\n    colorlinks=true,\n    linkcolor=maingreen,\n").toList ++
  ("    urlcolor=maingreen\n\x7d\n\n% Custom section command\n\\n").toList ++
  ("ewcommand\x7b\\cvsection\x7d[1]\x7b%\n    \\vspace\x7b5pt\x7d\n    \\n").toList ++
  ("oindent\\colorbox\x7bmaingreen\x7d\x7b%\n").toList ++
  ("        \\parbox\x7b\\dimexpr\\linewidth-2\\fboxsep\x7d\x7b%\n").toList ++
  ("            \\textcolor\x7bwhite\x7d\x7b\\textbf\x7b\\n").toList ++
  ("ormalsize #1\x7d\x7d%\n        \x7d%\n    \x7d%\n").toList ++
  ("    \\vspace\x7b4pt\x7d\n\x7d\n\n% Custom subsection for experiences\n").toList ++
  ("\\newcommand\x7b\\cventry\x7d[4]\x7b%\n    \\n").toList ++
  ("oindent\\textbf\x7b#1\x7d\\\\\n").toList ++
  ("    \\textit\x7b\\small\\textcolor\x7btextgray\x7d\x7b#2\x7d\x7d \\hfill \\textcolor\x7btextgray\x7d\x7b\\small #3\x7d\\\\\n").toList ++
  ("    #4\n    \\vspace\x7b2pt\x7d\n\x7d\n\n% Competence line\n\\n").toList ++
  ("ewcommand\x7b\\competence\x7d[2]\x7b%\n    \\n").toList ++
  ("oindent\\textbf\x7b\\small #1:\x7d \x7b\\small #2\x7d\\\\[1pt]\n\x7d\n\n").toList ++
  ("% Certification item\n\\newcommand\x7b\\certification\x7d[1]\x7b%\n").toList ++
  ("    \\textcolor\x7bmaingreen\x7d\x7b\\textbullet\x7d \x7b\\small #1\x7d\\\\[1pt]\n").toList ++
  ("\x7d\n\n\\begin\x7bdocument\x7d\n\n% Left green bar\n").toList ++
  ("\\begin\x7btikzpicture\x7d[remember picture, overlay]\n").toList ++
  ("    \\fill[maingreen] (current page.north west) rectangle ([xshift=0.3cm]current page.south west);\n").toList ++
  ("\\end\x7btikzpicture\x7d\n\n% Header\n\\begin\x7bcenter\x7d\n").toList ++
  ("    \x7b\\LARGE\\textbf\x7b").toList ++
  (a.personal.name) ++
  ("\x7d\x7d\\\\[3pt]\n    \x7b\\normalsize\\textcolor\x7bmaingreen\x7d\x7b").toList ++
  (escape_latex a.display_title) ++
  ("\x7d\x7d\\\\[4pt]\n    \x7b\\small\\textcolor\x7btextgray\x7d\x7b%\n").toList ++
  ("        \\faEnvelope\\ ").toList ++
  (a.personal.email) ++
  (" \\quad\n        \\faPhone\\ ").toList ++
  (a.personal.phone) ++
  (" \\quad\n        \\faMapMarker\\ ").toList ++
  (a.personal.location) ++
  ("\n    \x7d\x7d\n\\end\x7bcenter\x7d\n\n\\vspace\x7b4pt\x7d\n\n").toList ++
  ("% Introduction\n\x7b\\small\\noindent\\textcolor\x7btextgray\x7d\x7b%\n").toList ++
  (escape_latex a.summary) ++
  ("\n\x7d\x7d\n\n% EXPERIENCES\n\\cvsection\x7b").toList ++
  (t.experiences) ++
  ("\x7d\n").toList ++
  (experiencesTex a.experiences) ++
  ("\n\n% FORMATIONS\n\\cvsection\x7b").toList ++
  (t.education) ++
  ("\x7d\n").toList ++
  (educationTex a.education) ++
  ("\n\n% COMPETENCES\n\\cvsection\x7b").toList ++
  (t.skills) ++
  ("\x7d\n").toList ++
  (skillsTex a.skills) ++
  ("\n\n% PROJETS PERSONNELS\n").toList ++
  ((if projectsTex a.projects = ([] : Str) then ([] : Str) else ("\\cvsection\x7b".toList ++ t.projects ++ "\x7d".toList))) ++
  ("\n").toList ++
  (projectsTex a.projects) ++
  ("\n\n% CERTIFICATIONS\n\\cvsection\x7b").toList ++
  (t.certifications) ++
  ("\x7d\n").toList ++
  (certificationsTex a.certifications) ++
  ("\n\n% LANGUES et CENTRES D'INTERET - 2 colonnes\n\\noindent\n").toList ++
  ("\\begin\x7bminipage\x7d[t]\x7b0.48\\linewidth\x7d\n\\cvsection\x7b").toList ++
  (t.languages) ++
  ("\x7d\n\\vspace\x7b-2pt\x7d\n").toList ++
  (languagesTex a.languages) ++
  ("\\end\x7bminipage\x7d%\n\\hfill\n").toList ++
  ("\\begin\x7bminipage\x7d[t]\x7b0.48\\linewidth\x7d\n\\cvsection\x7b").toList ++
  (t.interests) ++
  ("\x7d\n\\vspace\x7b-2pt\x7d\n").toList ++
  (interestsTex a.interests) ++
  ("\\end\x7bminipage\x7d\n\n\\end\x7bdocument\x7d\n").toList

/-- Concrete text refuting claim C5: exactly two strong French signals and
two strong English signals. -/
def c5Text : Str := "vous nous you will we are".toList

/-- A `langdetect` stub that always reports English. -/
def alwaysEnglishDetector : Str → Except Unit Str :=
  fun _ => .ok ("en".toList)

/-- Text with two strong French signals and no strong English signal, for
exercising the statistical-detector re-check. -/
def c5RecheckText : Str := "vous nous python".toList

/-- Witness text for claim C6: four of the five listed indicators, no strong
English signal, and repeated technical tokens. -/
def c6Text : Str :=
  "vous et notre équipe avec votre télétravail python sql python sql python sql".toList

/-- The five strong French indicators named by claim C6. -/
def c6FrenchIndicators : List Str :=
  (["vous", "nous", "votre", "notre", "télétravail"]).map String.toList

/-- Empty personal block for minimal test profiles. -/
def emptyPersonal : Personal :=
  { name := [], email := [], phone := [], location := [] }

/-- A profile with no declared title (everything else empty). -/
def profileNoTitles : Profile :=
  { personal := emptyPersonal, titles := [], experiences := [], skills := [],
    certifications := [], education := [], languages := [], interests := [] }

/-- A posting whose optional fields are all missing and whose title is the
empty string. -/
def jobNoTitle : JobData :=
  { title := [], company := [], url := [], raw_text := [], keywords := [] }

/-- A minimal profile with one declared title. -/
def profileOneTitle : Profile :=
  { personal := emptyPersonal, titles := ["Data Engineer".toList],
    experiences := [], skills := [], certifications := [], education := [],
    languages := [], interests := [] }

/-- Locally composed segment texts used in the C2 scenario. -/
def c2LocalTexts : SegmentTexts :=
  { accroche := "accroche locale".toList
    entreprise := "entreprise locale".toList
    moi := "moi local".toList
    nous := "nous local".toList
    conclusion := "conclusion locale".toList }

/-- A user-edit map that supplies only the hook segment. -/
def c2UserEdit : SegmentOverrides :=
  { accroche := some ("accroche utilisateur".toList) }

/-- An externally generated map that supplies only the candidate-fit
segment. -/
def c2Mistral : SegmentOverrides :=
  { moi := some ("moi mistral".toList) }

/-- The ranking order claimed for experiences: descending match score, then
ascending declared priority. -/
def expOrderRel (a b : ScoredExperience) : Prop :=
  b.score < a.score ∨ (a.score = b.score ∧ a.exp.priority ≤ b.exp.priority)

/-- First test experience for the C1 witness. -/
def c1Exp1 : Experience :=
  { title := "Data Engineer".toList
    company := "ACME".toList
    period := "2020 - 2023".toList
    bullets := (["b1", "b2", "b3", "b4", "b5"]).map String.toList
    priority := 1
    keywords := (["airflow", "bigquery"]).map String.toList }

/-- Second test experience for the C1 witness. -/
def c1Exp2 : Experience :=
  { title := "Data Analyst".toList
    company := "Beta".toList
    period := "2018 - 2020".toList
    bullets := ["a1".toList]
    priority := 2
    keywords := ["tableau".toList] }

/-- Posting keywords for the C1 witness. -/
def c1JobKeywords : List Str := (["airflow", "bigquery"]).map String.toList

/-- The ranking order claimed for skill groups: descending score, then
descending exact-tier count. -/
def skillOrderRel (a b : ScoredSkill) : Prop :=
  b.score < a.score ∨ (a.score = b.score ∧ b.exact_count ≤ a.exact_count)

/-- What claim C7 asserts of one adapted skill group `sk` derived from the
declared group `entry`: the tiered, capped item list, the weighted score and
the exact-tier count. -/
def skillEntrySpec (jobKeywords : List Str) (jobText : Str)
    (entry : Str × SkillData) (sk : ScoredSkill) : Prop :=
  (entry.2.items.filter (itemExactMatch jobKeywords) = [] ∧
      entry.2.items.filter (fun it =>
        !itemExactMatch jobKeywords it &&
          itemTextMatch jobKeywords jobText it) = [] →
    sk.items = entry.2.items.take 5) ∧
  (¬ (entry.2.items.filter (itemExactMatch jobKeywords) = [] ∧
      entry.2.items.filter (fun it =>
        !itemExactMatch jobKeywords it &&
          itemTextMatch jobKeywords jobText it) = []) →
    sk.items =
      (entry.2.items.filter (itemExactMatch jobKeywords) ++
       entry.2.items.filter (fun it =>
         !itemExactMatch jobKeywords it &&
           itemTextMatch jobKeywords jobText it) ++
       entry.2.items.filter (fun it =>
         !itemExactMatch jobKeywords it &&
           !itemTextMatch jobKeywords jobText it)).take 6) ∧
  sk.score = match_score entry.2.keywords jobKeywords +
    ((entry.2.items.filter (itemExactMatch jobKeywords)).length * 5 +
     (entry.2.items.filter (fun it =>
       !itemExactMatch jobKeywords it &&
         itemTextMatch jobKeywords jobText it)).length * 2) ∧
  sk.exact_count =
    (entry.2.items.filter (itemExactMatch jobKeywords)).length

/-- First test skill group for the C7 witness. -/
def c7Skill1 : Str × SkillData :=
  ("cloud".toList,
    { label := "Cloud".toList
      keywords := (["gcp", "bigquery"]).map String.toList
      items := (["BigQuery", "Dataflow", "Cloud Run"]).map String.toList })

/-- Second test skill group for the C7 witness. -/
def c7Skill2 : Str × SkillData :=
  ("viz".toList,
    { label := "Visualisation".toList
      keywords := ["tableau".toList]
      items := (["Tableau", "Power BI"]).map String.toList })

/-- Posting keywords for the C7 witness. -/
def c7JobKeywords : List Str := (["bigquery", "python"]).map String.toList

/-- Posting raw text for the C7 witness. -/
def c7JobText : Str := "stack python et bigquery".toList

/-- A neutral job context for the rendering counterexample. -/
def c3Context : JobContext :=
  { company_type := "entreprise".toList
    tone := "professional".toList
    team_size := []
    missions := []
    values := []
    tech_stack := []
    growth_stage := []
    remote_policy := []
    key_challenges := [] }

/-- Adapted record whose only special character sits in an interest entry. -/
def c3Adapted : AdaptedProfile :=
  { personal := { name := "Jean Dupont".toList
                  email := "jean@mail.fr".toList
                  phone := "06 00 00 00 00".toList
                  location := "Paris".toList }
    job_title := "Data Engineer".toList
    company := "Entreprise".toList
    job_url := []
    summary := "Un parcours data.".toList
    display_title := "Data Engineer".toList
    experiences := []
    skills := []
    certifications := []
    education := []
    languages := []
    interests := ["R&D".toList]
    job_keywords := []
    job_location := []
    job_context := c3Context
    job_description := []
    logo_url := []
    colors := []
    language := "fr".toList }

/-- The same adapted record with no interests. -/
def c3AdaptedNoInterests : AdaptedProfile :=
  { c3Adapted with interests := [] }

theorem keyLE_refl (p : Int × Int) : keyLE p p := Or.inr ⟨rfl, le_refl _⟩

theorem pySortByKey_perm {α : Type} (f : α → Int × Int) (l : List α) :
    (pySortByKey f l).Perm l :=
  List.perm_insertionSort _ l

theorem pySortByKey_sorted {α : Type} (f : α → Int × Int) (l : List α) :
    (pySortByKey f l).Sorted (keyRel f) :=
  List.sorted_insertionSort _ l

theorem filter_orderedInsert_of_key_eq {α : Type} (f : α → Int × Int)
    {k : Int × Int} {x : α} (hx : f x = k) (m : List α) :
    (List.orderedInsert (keyRel f) x m).filter (fun a => decide (f a = k)) =
      x :: m.filter (fun a => decide (f a = k)) := by
  induction m with
  | nil => simp [List.orderedInsert, hx]
  | cons y ys ih =>
    by_cases hr : keyRel f x y
    · simp [List.orderedInsert, hr, hx]
    · have hky : ¬ f y = k := by
        intro he
        have hxy : f x = f y := hx.trans he.symm
        exact hr (by show keyLE (f x) (f y); rw [hxy]; exact keyLE_refl (f y))
      simp [List.orderedInsert, hr, hky, ih]

theorem filter_orderedInsert_of_key_ne {α : Type} (f : α → Int × Int)
    {k : Int × Int} {x : α} (hx : ¬ f x = k) (m : List α) :
    (List.orderedInsert (keyRel f) x m).filter (fun a => decide (f a = k)) =
      m.filter (fun a => decide (f a = k)) := by
  induction m with
  | nil => simp [List.orderedInsert, hx]
  | cons y ys ih =>
    by_cases hr : keyRel f x y
    · simp [List.orderedInsert, hr, hx]
    · by_cases hky : f y = k
      · simp [List.orderedInsert, hr, hky, ih]
      · simp [List.orderedInsert, hr, hky, ih]

/-- Stability of the modelled Python sort: for every key value, the entries
carrying that key appear in the output in their original input order. -/
theorem pySortByKey_stable {α : Type} (f : α → Int × Int) (k : Int × Int) :
    ∀ l : List α,
      (pySortByKey f l).filter (fun a => decide (f a = k)) =
        l.filter (fun a => decide (f a = k)) := by
  intro l
  induction l with
  | nil => rfl
  | cons x xs ih =>
    show (List.orderedInsert (keyRel f) x (pySortByKey f xs)).filter _ = _
    by_cases hx : f x = k
    · rw [filter_orderedInsert_of_key_eq f hx, ih]
      simp [hx]
    · rw [filter_orderedInsert_of_key_ne f hx, ih]
      simp [hx]

theorem replaceChar_append (old : Char) (new : Str) (a b : Str) :
    replaceChar old new (a ++ b) =
      replaceChar old new a ++ replaceChar old new b := by
  simp [replaceChar]

theorem escape_latex_append (a b : Str) :
    escape_latex (a ++ b) = escape_latex a ++ escape_latex b := by
  simp [escape_latex, replaceChar_append]

theorem escape_latex_cons (c : Char) (t : Str) :
    escape_latex (c :: t) = escape_latex [c] ++ escape_latex t := by
  have h : c :: t = [c] ++ t := rfl
  rw [h, escape_latex_append]

theorem escape_latex_single (c : Char) :
    escape_latex [c] = escapeCharTable c := by
  by_cases h1 : c = '&'
  · subst h1; decide
  · by_cases h2 : c = '%'
    · subst h2; decide
    · by_cases h3 : c = '$'
      · subst h3; decide
      · by_cases h4 : c = '#'
        · subst h4; decide
        · by_cases h5 : c = '_'
          · subst h5; decide
          · by_cases h6 : c = '\x7b'
            · subst h6; decide
            · by_cases h7 : c = '\x7d'
              · subst h7; decide
              · by_cases h8 : c = '~'
                · subst h8; decide
                · by_cases h9 : c = '^'
                  · subst h9; decide
                  · simp [escape_latex, replaceChar, escapeCharTable,
                      h1, h2, h3, h4, h5, h6, h7, h8, h9]

theorem escape_latex_eq_flatMap (s : Str) :
    escape_latex s = s.flatMap escapeCharTable := by
  induction s with
  | nil => rfl
  | cons c t ih =>
    rw [escape_latex_cons, escape_latex_single, ih]
    rfl

theorem escapeCharTable_cases (c : Char) (ht : ¬ c = '~') (hc : ¬ c = '^') :
    (texSpecial c = true ∧ escapeCharTable c = ['\\', c]) ∨
      (texSpecial c = false ∧ escapeCharTable c = [c]) := by
  by_cases h1 : c = '&'
  · subst h1; left; exact ⟨by decide, by decide⟩
  · by_cases h2 : c = '%'
    · subst h2; left; exact ⟨by decide, by decide⟩
    · by_cases h3 : c = '$'
      · subst h3; left; exact ⟨by decide, by decide⟩
      · by_cases h4 : c = '#'
        · subst h4; left; exact ⟨by decide, by decide⟩
        · by_cases h5 : c = '_'
          · subst h5; left; exact ⟨by decide, by decide⟩
          · by_cases h6 : c = '\x7b'
            · subst h6; left; exact ⟨by decide, by decide⟩
            · by_cases h7 : c = '\x7d'
              · subst h7; left; exact ⟨by decide, by decide⟩
              · right
                constructor
                · simp [texSpecial, h1, h2, h3, h4, h5, h6, h7]
                · simp [escapeCharTable, h1, h2, h3, h4, h5, h6, h7, ht, hc]

theorem escapedFrom_flatMap (s : Str)
    (h : ∀ c ∈ s, ¬ c = '~' ∧ ¬ c = '^') (prev : Char) :
    escapedFrom prev (s.flatMap escapeCharTable) = true := by
  induction s generalizing prev with
  | nil => rfl
  | cons c t ih =>
    have hc := h c (List.mem_cons_self c t)
    have ht : ∀ d ∈ t, ¬ d = '~' ∧ ¬ d = '^' := fun d hd =>
      h d (List.mem_cons_of_mem c hd)
    rcases escapeCharTable_cases c hc.1 hc.2 with ⟨_, he⟩ | ⟨hs, he⟩
    · rw [List.flatMap_cons, he]
      show escapedFrom prev ('\\' :: c :: t.flatMap escapeCharTable) = true
      simp only [escapedFrom, Bool.and_eq_true, Bool.or_eq_true]
      refine ⟨Or.inl (by decide), ⟨Or.inr (by decide), ih ht c⟩⟩
    · rw [List.flatMap_cons, he]
      show escapedFrom prev (c :: t.flatMap escapeCharTable) = true
      simp only [escapedFrom, Bool.and_eq_true, Bool.or_eq_true]
      exact ⟨Or.inl (by simp [hs]), ih ht c⟩

theorem escape_latex_allEscaped (s : Str)
    (h : ∀ c ∈ s, ¬ c = '~' ∧ ¬ c = '^') :
    allEscaped (escape_latex s) = true := by
  rw [escape_latex_eq_flatMap]
  cases s with
  | nil => rfl
  | cons c t =>
    have hc := h c (List.mem_cons_self c t)
    have ht : ∀ d ∈ t, ¬ d = '~' ∧ ¬ d = '^' := fun d hd =>
      h d (List.mem_cons_of_mem c hd)
    rcases escapeCharTable_cases c hc.1 hc.2 with ⟨_, he⟩ | ⟨hs, he⟩
    · rw [List.flatMap_cons, he]
      show allEscaped ('\\' :: c :: t.flatMap escapeCharTable) = true
      simp only [allEscaped, escapedFrom, Bool.and_eq_true, Bool.or_eq_true]
      exact ⟨by decide, ⟨Or.inr (by decide), escapedFrom_flatMap t ht c⟩⟩
    · rw [List.flatMap_cons, he]
      show allEscaped (c :: t.flatMap escapeCharTable) = true
      simp only [allEscaped, Bool.and_eq_true]
      exact ⟨by simp [hs], escapedFrom_flatMap t ht c⟩

/-- C9: `match_score` is symmetric, and its value only depends on the two
lower-cased keyword sets, so it is insensitive to letter case, duplication
and order of the keyword lists. -/
theorem match_score_symm_and_set_determined :
    ∀ a b a' b' : List Str,
      (a.map pyLower).toFinset = (a'.map pyLower).toFinset →
      (b.map pyLower).toFinset = (b'.map pyLower).toFinset →
      match_score a b = match_score b a ∧ match_score a b = match_score a' b' := by
  intro a b a' b' ha hb
  constructor
  · unfold match_score
    rw [Finset.inter_comm]
  · unfold match_score
    rw [ha, hb]

/-- Witness for C9 at concrete inputs: case changes and duplication leave the
score unchanged, and the score is symmetric. -/
theorem match_score_symm_witness :
    ((["Python", "SQL"].map String.toList).map pyLower).toFinset =
        ((["python", "sql", "PYTHON"].map String.toList).map pyLower).toFinset ∧
      ((["sql"].map String.toList).map pyLower).toFinset =
        ((["SQL", "sql"].map String.toList).map pyLower).toFinset ∧
      match_score (["Python", "SQL"].map String.toList)
          (["sql"].map String.toList) =
        match_score (["sql"].map String.toList)
          (["Python", "SQL"].map String.toList) ∧
      match_score (["Python", "SQL"].map String.toList)
          (["sql"].map String.toList) =
        match_score (["python", "sql", "PYTHON"].map String.toList)
          (["SQL", "sql"].map String.toList) := by
  refine ⟨by decide, by decide, ?_⟩
  exact match_score_symm_and_set_determined
    (["Python", "SQL"].map String.toList) (["sql"].map String.toList)
    (["python", "sql", "PYTHON"].map String.toList)
    (["SQL", "sql"].map String.toList) (by decide) (by decide)

/-- C8: the compilation orchestrator returns success exactly when some
compiler in the fixed ordered list finishes with exit code zero; absent
binaries, timeouts and non-zero exits fall through, and the listed
end-to-end scenarios behave as specified. -/
theorem compile_latex_success_iff :
    ∀ outcomes : List CompilerOutcome,
      (compile_latex outcomes = true ↔
        ∃ o ∈ outcomes, compilerSucceeded o = true) ∧
      compile_latex [.binaryAbsent, .finished 0 []] = true ∧
      compile_latex [] = false ∧
      compile_latex [.finished 1 ("pdflatex: not found".toList), .timedOut] = false := by
  intro outcomes
  refine ⟨?_, rfl, rfl, rfl⟩
  induction outcomes with
  | nil => simp [compile_latex]
  | cons o rest ih =>
    cases o with
    | binaryAbsent =>
      simp only [compile_latex, ih]
      constructor
      · rintro ⟨x, hx, hs⟩
        exact ⟨x, List.mem_cons_of_mem _ hx, hs⟩
      · rintro ⟨x, hx, hs⟩
        rcases List.mem_cons.mp hx with rfl | hx
        · exact absurd hs (by simp [compilerSucceeded])
        · exact ⟨x, hx, hs⟩
    | timedOut =>
      simp only [compile_latex, ih]
      constructor
      · rintro ⟨x, hx, hs⟩
        exact ⟨x, List.mem_cons_of_mem _ hx, hs⟩
      · rintro ⟨x, hx, hs⟩
        rcases List.mem_cons.mp hx with rfl | hx
        · exact absurd hs (by simp [compilerSucceeded])
        · exact ⟨x, hx, hs⟩
    | finished code err =>
      cases code with
      | zero =>
        simp only [compile_latex]
        constructor
        · intro _
          exact ⟨.finished 0 err, List.mem_cons_self _ _, rfl⟩
        · intro _
          trivial
      | succ n =>
        simp only [compile_latex, ih]
        constructor
        · rintro ⟨x, hx, hs⟩
          exact ⟨x, List.mem_cons_of_mem _ hx, hs⟩
        · rintro ⟨x, hx, hs⟩
          rcases List.mem_cons.mp hx with rfl | hx
          · exact absurd hs (by simp [compilerSucceeded])
          · exact ⟨x, hx, hs⟩

/-- Counterexample to claim C5: on a text with exactly two strong French
signals and two strong English signals, `detect_offer_language` returns the
English tag, not the French one — the cross-check does not run at the
English strong-signal tier. -/
theorem detect_language_c5_counterexample :
    frenchStrongCount (pyLower c5Text) = 2 ∧
      2 ≤ englishStrongCount (pyLower c5Text) ∧
      detect_offer_language none c5Text = "en".toList ∧
      ¬ detect_offer_language none c5Text = "fr".toList := by
  refine ⟨by decide, by decide, by decide, by decide⟩

/-- C5 (amended): when the French strong count is below 3 and the English
strong count reaches 2, the classifier returns the English tag regardless of
the French count; the ≥2 French re-check only applies in the statistical
fallback tier, when the statistical detector reports English. -/
theorem detect_language_english_tier_and_recheck :
    ∀ (ld : LangDetector) (f : Str → Except Unit Str) (text : Str),
      (frenchStrongCount (pyLower text) < 3 →
        2 ≤ englishStrongCount (pyLower text) →
        detect_offer_language ld text = "en".toList) ∧
      (frenchStrongCount (pyLower text) < 3 →
        englishStrongCount (pyLower text) < 2 →
        2 ≤ frenchStrongCount (pyLower text) →
        f (text.take 3000) = .ok ("en".toList) →
        detect_offer_language (some f) text = "fr".toList) := by
  intro ld f text
  constructor
  · intro h3 h2
    have htext : ¬ text = [] := by
      intro he
      subst he
      have h0 : englishStrongCount (pyLower ([] : Str)) = 0 := by decide
      omega
    have h3' : ¬ 3 ≤ frenchStrongCount (pyLower text) := by omega
    simp only [detect_offer_language, htext, h3', h2, if_true, if_false,
      ite_true, ite_false, if_neg, not_false_eq_true]
  · intro h3 h2 hfr hf
    have htext : ¬ text = [] := by
      intro he
      subst he
      have h0 : frenchStrongCount (pyLower ([] : Str)) = 0 := by decide
      omega
    have h3' : ¬ 3 ≤ frenchStrongCount (pyLower text) := by omega
    have h2' : ¬ 2 ≤ englishStrongCount (pyLower text) := by omega
    simp only [detect_offer_language, htext, h3', h2', hfr, hf, if_true,
      if_false, ite_true, ite_false, not_false_eq_true]
    have hne : ¬ ("en".toList : Str) = "fr".toList := by decide
    simp [hne]

/-- Witness for the amended C5: the English tier fires on the concrete
counterexample text, and the statistical re-check prefers French on a text
with two strong French signals when the detector says English. -/
theorem detect_language_c5_amended_witness :
    detect_offer_language none c5Text = "en".toList ∧
      detect_offer_language (some alwaysEnglishDetector) c5RecheckText =
        "fr".toList := by
  constructor
  · exact (detect_language_english_tier_and_recheck none
      alwaysEnglishDetector c5Text).1 (by decide) (by decide)
  · exact (detect_language_english_tier_and_recheck none
      alwaysEnglishDetector c5RecheckText).2 (by decide) (by decide)
      (by decide) rfl

theorem countPresent_mono {l1 l2 : List Str} (h : l1.Sublist l2) (t : Str) :
    countPresent l1 t ≤ countPresent l2 t :=
  (h.filter _).length_le

/-- C6: a text containing at least three of the five listed strong French
indicators is classified French immediately, whatever else it contains (the
strong English signals are absent by hypothesis, and technical tokens play
no role in this tier). -/
theorem detect_language_strong_french :
    ∀ (ld : LangDetector) (text : Str),
      3 ≤ countPresent c6FrenchIndicators (pyLower text) →
      englishStrongCount (pyLower text) = 0 →
      detect_offer_language ld text = "fr".toList := by
  intro ld text h3 _
  by_cases htext : text = []
  · simp [detect_offer_language, htext]
  · have hsub : c6FrenchIndicators.Sublist strongFrenchIndicators := by decide
    have h3' : 3 ≤ frenchStrongCount (pyLower text) :=
      le_trans h3 (countPresent_mono hsub (pyLower text))
    simp only [detect_offer_language, htext, h3', if_true, if_false,
      ite_true, ite_false, not_false_eq_true]

/-- Witness for C6: the concrete text has four of the five listed French
indicators, no strong English signal, and repeated pure technical tokens,
and classifies as French. -/
theorem detect_language_strong_french_witness :
    3 ≤ countPresent c6FrenchIndicators (pyLower c6Text) ∧
      englishStrongCount (pyLower c6Text) = 0 ∧
      containsSub (pyLower c6Text) ("python".toList) = true ∧
      containsSub (pyLower c6Text) ("sql".toList) = true ∧
      detect_offer_language none c6Text = "fr".toList := by
  refine ⟨by decide, by decide, by decide, by decide, ?_⟩
  exact detect_language_strong_french none c6Text (by decide) (by decide)

/-- C10: the classifier is total and two-valued — every call returns either
the French or the English tag whatever the `langdetect` collaborator does —
and the empty text returns the French tag immediately. -/
theorem detect_language_total_two_valued :
    ∀ (ld : LangDetector) (text : Str),
      (detect_offer_language ld text = "fr".toList ∨
        detect_offer_language ld text = "en".toList) ∧
      detect_offer_language ld [] = "fr".toList := by
  intro ld text
  constructor
  · by_cases htext : text = []
    · subst htext
      left
      rfl
    · simp only [detect_offer_language, htext, if_false, ite_false]
      split
      · left; rfl
      · split
        · right; rfl
        · split
          · split
            · right; rfl
            · left; rfl
          · rename_i f hmatch
            split
            · split
              · right; rfl
              · left; rfl
            · split
              · left; rfl
              · split
                · split
                  · left; rfl
                  · right; rfl
                · left; rfl
  · rfl

/-- Counterexample to claim C4: with no declared profile title and an empty
posting title (a missing optional field), `adapt_profile` hits
`profile["titles"][0]` and raises `IndexError` instead of degrading. -/
theorem adapt_profile_c4_counterexample :
    jobNoTitle.title = [] ∧
      (adapt_profile profileNoTitles jobNoTitle).isOk = false := by
  refine ⟨rfl, by decide⟩

theorem displayTitle_ok_of_titles_ne_nil (p : Profile) (j : JobData)
    (h : ¬ p.titles = []) : ∃ s, displayTitle p j = .ok s := by
  unfold displayTitle
  cases ht : p.titles with
  | nil => exact absurd ht h
  | cons a as =>
    split_ifs <;> exact ⟨_, rfl⟩

/-- C4 (amended): `adapt_profile` never raises provided the profile declares
at least one title; every optional field of the profile and of the posting
may be absent (and every list empty) without an error. -/
theorem adapt_profile_total_of_titles_ne_nil :
    ∀ (p : Profile) (j : JobData), ¬ p.titles = [] →
      (adapt_profile p j).isOk = true := by
  intro p j h
  rcases displayTitle_ok_of_titles_ne_nil p j h with ⟨s, hs⟩
  unfold adapt_profile
  rw [hs]
  rfl

/-- Witness for the amended C4: a concrete profile with one declared title
and a posting with every optional field absent adapt without error. -/
theorem adapt_profile_total_witness :
    ¬ profileOneTitle.titles = [] ∧
      (adapt_profile profileOneTitle jobNoTitle).isOk = true :=
  ⟨by decide, adapt_profile_total_of_titles_ne_nil profileOneTitle jobNoTitle
    (by decide)⟩

/-- Counterexample to claim C2: with a user-edit map present that lacks the
`moi` key and an external map available that contains it, the composed `moi`
segment is the local fallback, not the external value — the external map is
never consulted once a non-empty user map exists. -/
theorem cover_letter_c2_counterexample :
    overridesTruthy c2UserEdit = true ∧
      overrideOf .moi c2UserEdit = none ∧
      overrideOf .moi c2Mistral = some ("moi mistral".toList) ∧
      segmentOf .moi
          (resolveSegments c2LocalTexts (some c2UserEdit) (some c2Mistral)) =
        "moi local".toList ∧
      ¬ segmentOf .moi
          (resolveSegments c2LocalTexts (some c2UserEdit) (some c2Mistral)) =
        "moi mistral".toList := by
  refine ⟨rfl, rfl, rfl, rfl, by decide⟩

/-- C2 (amended): per segment, a present non-empty user-edit map wins with
its value (verbatim, even empty) when it contains the key and otherwise
falls back to the LOCAL composition (the external map is ignored entirely);
the external map is consulted only when no non-empty user map exists, again
key by key with local fallback; an empty override map behaves as an absent
one. -/
theorem cover_letter_override_chain :
    ∀ (n : SegmentName) (L : SegmentTexts) (eo mo : SegmentOverrides)
      (v w : Str),
      (overridesTruthy eo = true → overrideOf n eo = some v →
        segmentOf n (resolveSegments L (some eo) (some mo)) = v ∧
        segmentOf n (resolveSegments L (some eo) none) = v) ∧
      (overridesTruthy eo = true → overrideOf n eo = none →
        segmentOf n (resolveSegments L (some eo) (some mo)) =
          segmentOf n L) ∧
      (overridesTruthy eo = false →
        resolveSegments L (some eo) (some mo) =
          resolveSegments L none (some mo)) ∧
      (overridesTruthy mo = true → overrideOf n mo = some w →
        segmentOf n (resolveSegments L none (some mo)) = w) ∧
      (overridesTruthy mo = true → overrideOf n mo = none →
        segmentOf n (resolveSegments L none (some mo)) = segmentOf n L) ∧
      resolveSegments L none none = L := by
  intro n L eo mo v w
  refine ⟨?_, ?_, ?_, ?_, ?_, rfl⟩
  · intro ht hv
    cases n <;> simp_all [resolveSegments, applyOverrides, segmentOf,
      overrideOf]
  · intro ht hv
    cases n <;> simp_all [resolveSegments, applyOverrides, segmentOf,
      overrideOf]
  · intro ht
    simp [resolveSegments, ht]
  · intro ht hv
    cases n <;> simp_all [resolveSegments, applyOverrides, segmentOf,
      overrideOf]
  · intro ht hv
    cases n <;> simp_all [resolveSegments, applyOverrides, segmentOf,
      overrideOf]

/-- Witness for the amended C2 on concrete data: the user-supplied hook wins,
a user map lacking a key leaves the local text, and with no user map the
external value is used. -/
theorem cover_letter_override_chain_witness :
    segmentOf .accroche
        (resolveSegments c2LocalTexts (some c2UserEdit) (some c2Mistral)) =
      "accroche utilisateur".toList ∧
      segmentOf .nous
          (resolveSegments c2LocalTexts (some c2UserEdit) (some c2Mistral)) =
        "nous local".toList ∧
      segmentOf .moi (resolveSegments c2LocalTexts none (some c2Mistral)) =
        "moi mistral".toList := by
  refine ⟨?_, ?_, ?_⟩
  · exact ((cover_letter_override_chain .accroche c2LocalTexts c2UserEdit
      c2Mistral ("accroche utilisateur".toList) []).1 (by decide) rfl).1
  · exact (cover_letter_override_chain .nous c2LocalTexts c2UserEdit
      c2Mistral [] []).2.1 (by decide) rfl
  · exact (cover_letter_override_chain .moi c2LocalTexts c2UserEdit
      c2Mistral [] ("moi mistral".toList)).2.2.2.1 (by decide) rfl

theorem keyRel_experienceKey_iff (a b : ScoredExperience) :
    keyRel experienceKey a b ↔ expOrderRel a b := by
  unfold keyRel keyLE experienceKey expOrderRel
  constructor
  · intro h
    rcases h with h | ⟨h1, h2⟩
    · left; omega
    · right
      exact ⟨by omega, h2⟩
  · intro h
    rcases h with h | ⟨h1, h2⟩
    · left; omega
    · right
      exact ⟨by omega, h2⟩

theorem experienceKey_pred_eq (s : Nat) (pr : Int) (se : ScoredExperience) :
    decide (experienceKey se = ((-(s : Int)), pr)) =
      (decide (se.score = s) && decide (se.exp.priority = pr)) := by
  simp [experienceKey, Prod.mk.injEq, neg_inj, Nat.cast_inj,
    Bool.decide_and]

/-- C1: the adapted experience list is a permutation of the input experience
list (equal length, nothing dropped); every entry's score is the
case-insensitive keyword intersection size and its selected bullets are the
first four declared bullets; the list is sorted by descending score then
ascending priority; and entries tied on both keys keep their original
profile order. -/
theorem profile_adapter_experience_ranking :
    ∀ (jobKeywords : List Str) (exps : List Experience),
      (adaptExperiences jobKeywords exps).length = exps.length ∧
      ((adaptExperiences jobKeywords exps).map ScoredExperience.exp).Perm
        exps ∧
      (∀ se ∈ adaptExperiences jobKeywords exps,
        se.score = match_score se.exp.keywords jobKeywords ∧
        se.selected_bullets = se.exp.bullets.take 4) ∧
      (adaptExperiences jobKeywords exps).Pairwise expOrderRel ∧
      (∀ (s : Nat) (pr : Int),
        (adaptExperiences jobKeywords exps).filter
            (fun se => decide (se.score = s) &&
              decide (se.exp.priority = pr)) =
          (exps.map (annotateExperience jobKeywords)).filter
            (fun se => decide (se.score = s) &&
              decide (se.exp.priority = pr))) ∧
      (∀ (p : Profile) (j : JobData) (a : AdaptedProfile),
        adapt_profile p j = .ok a →
        a.experiences = adaptExperiences j.keywords p.experiences) := by
  intro jobKeywords exps
  unfold adaptExperiences
  have hperm := pySortByKey_perm experienceKey
    (exps.map (annotateExperience jobKeywords))
  refine ⟨?_, ?_, ?_, ?_, ?_, ?_⟩
  · rw [hperm.length_eq, List.length_map]
  · have h := hperm.map ScoredExperience.exp
    rw [List.map_map] at h
    have hid : exps.map (ScoredExperience.exp ∘ annotateExperience jobKeywords)
        = exps := by
      rw [show ScoredExperience.exp ∘ annotateExperience jobKeywords = id from
        funext (fun e => rfl), List.map_id]
    rwa [hid] at h
  · intro se hse
    have hmem : se ∈ exps.map (annotateExperience jobKeywords) :=
      hperm.mem_iff.mp hse
    rcases List.mem_map.mp hmem with ⟨e, _, rfl⟩
    exact ⟨rfl, rfl⟩
  · exact (pySortByKey_sorted experienceKey _).imp
      (fun h => (keyRel_experienceKey_iff _ _).mp h)
  · intro s pr
    rw [show (fun se : ScoredExperience => decide (se.score = s) &&
        decide (se.exp.priority = pr)) =
        (fun se => decide (experienceKey se = ((-(s : Int)), pr))) from
      funext (fun se => (experienceKey_pred_eq s pr se).symm)]
    exact pySortByKey_stable experienceKey ((-(s : Int)), pr) _
  · intro p j a ha
    unfold adapt_profile at ha
    cases hdt : displayTitle p j with
    | error e =>
      rw [hdt] at ha
      exact absurd ha (by simp)
    | ok t =>
      rw [hdt] at ha
      injection ha with ha
      rw [← ha]
      rfl

/-- Witness for C1 on a concrete profile and posting: the ranked list keeps
both experiences, the annotated entry carries the intersection score and the
first four bullets, and the filter-stability instance holds at the top key. -/
theorem profile_adapter_experience_ranking_witness :
    (adaptExperiences c1JobKeywords [c1Exp1, c1Exp2]).length =
        [c1Exp1, c1Exp2].length ∧
      ((annotateExperience c1JobKeywords c1Exp1).score =
          match_score (annotateExperience c1JobKeywords c1Exp1).exp.keywords
            c1JobKeywords ∧
        (annotateExperience c1JobKeywords c1Exp1).selected_bullets =
          (annotateExperience c1JobKeywords c1Exp1).exp.bullets.take 4) ∧
      (adaptExperiences c1JobKeywords [c1Exp1, c1Exp2]).filter
          (fun se => decide (se.score = 2) && decide (se.exp.priority = 1)) =
        ([c1Exp1, c1Exp2].map (annotateExperience c1JobKeywords)).filter
          (fun se => decide (se.score = 2) && decide (se.exp.priority = 1)) ∧
      (adapt_profile profileOneTitle jobNoTitle).map
          AdaptedProfile.experiences =
        .ok (adaptExperiences jobNoTitle.keywords
          profileOneTitle.experiences) := by
  refine ⟨?_, ?_, ?_, ?_⟩
  · exact (profile_adapter_experience_ranking c1JobKeywords
      [c1Exp1, c1Exp2]).1
  · exact (profile_adapter_experience_ranking c1JobKeywords
      [c1Exp1, c1Exp2]).2.2.1 (annotateExperience c1JobKeywords c1Exp1)
      (by decide)
  · exact (profile_adapter_experience_ranking c1JobKeywords
      [c1Exp1, c1Exp2]).2.2.2.2.1 2 1
  · cases ha : adapt_profile profileOneTitle jobNoTitle with
    | error e =>
      have hok : (adapt_profile profileOneTitle jobNoTitle).isOk = true := by
        decide
      rw [ha] at hok
      exact absurd hok (by simp [Except.isOk, Except.toBool])
    | ok a =>
      have hexp := (profile_adapter_experience_ranking c1JobKeywords
        [c1Exp1, c1Exp2]).2.2.2.2.2 profileOneTitle jobNoTitle a ha
      exact (show Except.map AdaptedProfile.experiences (Except.ok a) =
        Except.ok a.experiences from rfl).trans (congrArg Except.ok hexp)

theorem keyRel_skillKey_iff (a b : ScoredSkill) :
    keyRel skillKey a b ↔ skillOrderRel a b := by
  unfold keyRel keyLE skillKey skillOrderRel
  constructor
  · intro h
    rcases h with h | ⟨h1, h2⟩
    · left; omega
    · right
      exact ⟨by omega, by omega⟩
  · intro h
    rcases h with h | ⟨h1, h2⟩
    · left; omega
    · right
      exact ⟨by omega, by omega⟩

theorem skillKey_pred_eq (s e : Nat) (sk : ScoredSkill) :
    decide (skillKey sk = ((-(s : Int)), (-(e : Int)))) =
      (decide (sk.score = s) && decide (sk.exact_count = e)) := by
  simp [skillKey, Prod.mk.injEq, neg_inj, Nat.cast_inj, Bool.decide_and]

/-- C7: every adapted skill group is its exact tier, then its text tier, then
the rest, capped at six items (first five declared items when both match
tiers are empty); its score is the keyword intersection plus five per exact
item plus two per text item; and the group list is the stable
(score-descending, exact-count-descending) sort of the annotated input cut
to at most seven groups, never more than the input count. -/
theorem profile_adapter_skill_ranking :
    ∀ (jobKeywords : List Str) (jobText : Str)
      (skills : List (Str × SkillData)),
      adaptSkills jobKeywords jobText skills =
          (adaptSkillsAll jobKeywords jobText skills).take 7 ∧
        (adaptSkills jobKeywords jobText skills).length ≤ 7 ∧
        (adaptSkills jobKeywords jobText skills).length ≤ skills.length ∧
        (adaptSkillsAll jobKeywords jobText skills).Perm
          (skills.map (annotateSkill jobKeywords jobText)) ∧
        (∀ sk ∈ adaptSkills jobKeywords jobText skills,
          ∃ entry ∈ skills,
            sk = annotateSkill jobKeywords jobText entry ∧
            skillEntrySpec jobKeywords jobText entry sk) ∧
        (adaptSkills jobKeywords jobText skills).Pairwise skillOrderRel ∧
        (∀ s e : Nat,
          (adaptSkillsAll jobKeywords jobText skills).filter
              (fun sk => decide (sk.score = s) &&
                decide (sk.exact_count = e)) =
            (skills.map (annotateSkill jobKeywords jobText)).filter
              (fun sk => decide (sk.score = s) &&
                decide (sk.exact_count = e))) ∧
        (∀ (p : Profile) (j : JobData) (a : AdaptedProfile),
          adapt_profile p j = .ok a →
          a.skills = adaptSkills j.keywords j.raw_text p.skills) := by
  intro jobKeywords jobText skills
  have hperm := pySortByKey_perm skillKey
    (skills.map (annotateSkill jobKeywords jobText))
  have hlenAll : (adaptSkillsAll jobKeywords jobText skills).length =
      skills.length := by
    unfold adaptSkillsAll
    rw [hperm.length_eq, List.length_map]
  refine ⟨rfl, ?_, ?_, hperm, ?_, ?_, ?_, ?_⟩
  · unfold adaptSkills
    rw [List.length_take]
    omega
  · unfold adaptSkills
    rw [List.length_take]
    omega
  · intro sk hsk
    have hskAll : sk ∈ adaptSkillsAll jobKeywords jobText skills :=
      List.take_subset 7 _ hsk
    have hmem : sk ∈ skills.map (annotateSkill jobKeywords jobText) :=
      hperm.mem_iff.mp hskAll
    rcases List.mem_map.mp hmem with ⟨entry, hentry, rfl⟩
    unfold skillEntrySpec
    refine ⟨entry, hentry, rfl, ?_, ?_, rfl, rfl⟩
    · intro hboth
      show (annotateSkill jobKeywords jobText entry).items = _
      unfold annotateSkill
      simp only [hboth.1, hboth.2, List.nil_append, and_self, if_true,
        ite_true]
      rw [List.take_take]
      norm_num
    · intro hboth
      show (annotateSkill jobKeywords jobText entry).items = _
      unfold annotateSkill
      simp only [if_neg hboth]
  · exact ((pySortByKey_sorted skillKey _).sublist
      (List.take_sublist 7 _)).imp (fun h => (keyRel_skillKey_iff _ _).mp h)
  · intro s e
    rw [show (fun sk : ScoredSkill => decide (sk.score = s) &&
        decide (sk.exact_count = e)) =
        (fun sk => decide (skillKey sk = ((-(s : Int)), (-(e : Int))))) from
      funext (fun sk => (skillKey_pred_eq s e sk).symm)]
    exact pySortByKey_stable skillKey ((-(s : Int)), (-(e : Int))) _
  · intro p j a ha
    unfold adapt_profile at ha
    cases hdt : displayTitle p j with
    | error e2 =>
      rw [hdt] at ha
      exact absurd ha (by simp)
    | ok t =>
      rw [hdt] at ha
      injection ha with ha
      rw [← ha]

/-- Witness for C7 on concrete groups: the adapted list stays within the
caps, the concrete adapted group satisfies the tiering/score
characterisation, and the filter-stability instance holds at a concrete
key. -/
theorem profile_adapter_skill_ranking_witness :
    (adaptSkills c7JobKeywords c7JobText [c7Skill1, c7Skill2]).length ≤ 7 ∧
      (∃ entry ∈ [c7Skill1, c7Skill2],
        annotateSkill c7JobKeywords c7JobText c7Skill1 =
          annotateSkill c7JobKeywords c7JobText entry ∧
        skillEntrySpec c7JobKeywords c7JobText entry
          (annotateSkill c7JobKeywords c7JobText c7Skill1)) ∧
      (adaptSkillsAll c7JobKeywords c7JobText [c7Skill1, c7Skill2]).filter
          (fun sk => decide (sk.score = 7) && decide (sk.exact_count = 1)) =
        ([c7Skill1, c7Skill2].map
            (annotateSkill c7JobKeywords c7JobText)).filter
          (fun sk => decide (sk.score = 7) && decide (sk.exact_count = 1)) ∧
      (adapt_profile profileOneTitle jobNoTitle).map AdaptedProfile.skills =
        .ok (adaptSkills jobNoTitle.keywords jobNoTitle.raw_text
          profileOneTitle.skills) := by
  refine ⟨?_, ?_, ?_, ?_⟩
  · exact (profile_adapter_skill_ranking c7JobKeywords c7JobText
      [c7Skill1, c7Skill2]).2.1
  · exact (profile_adapter_skill_ranking c7JobKeywords c7JobText
      [c7Skill1, c7Skill2]).2.2.2.2.1
      (annotateSkill c7JobKeywords c7JobText c7Skill1) (by decide)
  · exact (profile_adapter_skill_ranking c7JobKeywords c7JobText
      [c7Skill1, c7Skill2]).2.2.2.2.2.2.1 7 1
  · cases ha : adapt_profile profileOneTitle jobNoTitle with
    | error e =>
      have hok : (adapt_profile profileOneTitle jobNoTitle).isOk = true := by
        decide
      rw [ha] at hok
      exact absurd hok (by simp [Except.isOk, Except.toBool])
    | ok a =>
      have hsk := (profile_adapter_skill_ranking c7JobKeywords c7JobText
        [c7Skill1, c7Skill2]).2.2.2.2.2.2.2 profileOneTitle jobNoTitle a ha
      exact (show Except.map AdaptedProfile.skills (Except.ok a) =
        Except.ok a.skills from rfl).trans (congrArg Except.ok hsk)

set_option maxRecDepth 200000 in
/-- Counterexample to claim C3: the interest `R&D` reaches the rendered
résumé with its ampersand unescaped (the interests loop does not call
`escape_latex`), while the same document without that interest has no
unescaped ampersand at all — so the `&` comes from the interpolated datum.
Periods, certification dates and personal name/email/phone/location are
likewise interpolated raw. -/
theorem renderer_c3_counterexample :
    c3Adapted.interests = ["R&D".toList] ∧
      unescapedOcc '&' (cvContent c3Adapted) = true ∧
      unescapedOcc '&' (cvContent c3AdaptedNoInterests) = false := by
  refine ⟨rfl, by decide, by decide⟩

/-- C3 (amended): every string that `generate_cv`/`generate_cover_letter`
pass through `escape_latex` — experience titles and companies, bullets,
education titles and schools, skill labels and items, certification names,
language names and levels, the summary, the display title and the letter's
escaped fields — is rendered with every occurrence of `&`, `%`, `$`, `#`,
`_`, `{`, `}` preceded by a backslash, provided the string contains no `~`
or `^`; periods, certification dates, interests and the personal
name/email/phone/location of the résumé header are interpolated without
escaping. -/
theorem escape_latex_escapes_specials :
    ∀ s : Str, (∀ c ∈ s, ¬ c = '~' ∧ ¬ c = '^') →
      allEscaped (escape_latex s) = true :=
  fun s h => escape_latex_allEscaped s h

/-- Witness for the amended C3 on a concrete string holding every reserved
character. -/
theorem escape_latex_escapes_specials_witness :
    (∀ c ∈ ("R&D_50%_$#_\x7bx\x7d".toList : Str), ¬ c = '~' ∧ ¬ c = '^') ∧
      allEscaped (escape_latex ("R&D_50%_$#_\x7bx\x7d".toList)) = true :=
  ⟨by decide, escape_latex_escapes_specials ("R&D_50%_$#_\x7bx\x7d".toList)
    (by decide)⟩
